import Mathlib

/-!
Shallow embedding of the voice_reserve_ai reservation service.

The embedding covers the parts of the code the claims are about:

* `app/calendar.py` — `Reservation` and `ReservationCalendar` (the
  availability store).  Python's insertion-ordered `dict` is modelled as an
  association list with insert-or-replace semantics (`dictSet`) and
  first-match lookup (`dictGet`); `datetime` values are modelled as opaque
  strings, since the store only carries them around and compares by key.
  `datetime.now().strftime(...)` inside `add_reservation` is made explicit
  as a `now : String` argument (the formatted second-resolution timestamp).
* `app/agent.py` — `ReservationSession` with `process_message`.  The
  external model invocation (`temp_agent.ainvoke`) is an oracle argument of
  type `LLM`; the returned pair's second component is the state of the
  session object after the call, whether it returned or raised.
* `app/main.py` — the `/chat` endpoint and one iteration of the
  `llm_websocket` relay loop (`handleFrame`): session creation with the
  hard-coded fallback parameters, the `interaction_type` filter, message
  extraction from the transcript, the "No message provided." error frame,
  the reply frame, and the outer exception handler that sends an error
  frame, closes the stream and drops the session.
-/

/-- One entry of the insertion-ordered dictionary: lookup by key,
first match (keys are unique in a Python dict, so first match is the
match). -/
def dictGet {α : Type} : List (String × α) → String → Option α
  | [], _ => none
  | (k, v) :: rest, key => if k == key then some v else dictGet rest key

/-- Insert-or-replace for the insertion-ordered dictionary: replacing an
existing key keeps its position, a new key is appended at the end, exactly
like assignment into a Python `dict`. -/
def dictSet {α : Type} : List (String × α) → String → α → List (String × α)
  | [], key, v => [(key, v)]
  | (k, w) :: rest, key, v =>
      if k == key then (key, v) :: rest else (k, w) :: dictSet rest key v

/-- Embeds the pydantic `Reservation` model of `app/calendar.py`.  `date`
is the opaque rendering of the `datetime` value. -/
structure Reservation where
  reservation_id : String
  date : String
  party_size : Int
  customer_name : String
  phone_number : String
  status : String
deriving Repr, DecidableEq

/-- Embeds `ReservationCalendar`: the in-memory `self.reservations`
dictionary. -/
structure ReservationCalendar where
  reservations : List (String × Reservation)
deriving Repr, DecidableEq

/-- Embeds `ReservationCalendar.add_reservation`.  The id is
`"RES-" + datetime.now().strftime("%Y%m%d%H%M%S")`; the formatted
timestamp of the call is the explicit argument `now`.  The new record is
stored under its id and returned. -/
def ReservationCalendar.add_reservation (c : ReservationCalendar) (now : String)
    (date : String) (party_size : Int) (customer_name : String)
    (phone_number : String) : Reservation × ReservationCalendar :=
  let reservation_id := "RES-" ++ now
  let r : Reservation :=
    { reservation_id := reservation_id
      date := date
      party_size := party_size
      customer_name := customer_name
      phone_number := phone_number
      status := "confirmed" }
  (r, ⟨dictSet c.reservations reservation_id r⟩)

/-- Embeds `ReservationCalendar.get_reservation`:
`self.reservations.get(reservation_id)`. -/
def ReservationCalendar.get_reservation (c : ReservationCalendar)
    (reservation_id : String) : Option Reservation :=
  dictGet c.reservations reservation_id

/-- Embeds `ReservationCalendar.cancel_reservation`: if the id is a key of
the dictionary, set that record's `status` field to `"cancelled"` and
return `True`; otherwise return `False` and touch nothing. -/
def ReservationCalendar.cancel_reservation (c : ReservationCalendar)
    (reservation_id : String) : Bool × ReservationCalendar :=
  match dictGet c.reservations reservation_id with
  | some r =>
      (true, ⟨dictSet c.reservations reservation_id { r with status := "cancelled" }⟩)
  | none => (false, c)

/-- Lookup after insert-or-replace at the same key yields the inserted
value. -/
theorem dictGet_dictSet_self {α : Type} (d : List (String × α)) (k : String)
    (v : α) : dictGet (dictSet d k v) k = some v := by
  induction d with
  | nil => simp [dictSet, dictGet]
  | cons p rest ih =>
      by_cases h : p.1 == k
      · cases p with
        | mk k' w => simp_all [dictSet, dictGet]
      · cases p with
        | mk k' w => simp_all [dictSet, dictGet]

/-- Replacing a key with the value it already holds leaves the dictionary
unchanged. -/
theorem dictSet_eq_of_get {α : Type} (d : List (String × α)) (k : String)
    (v : α) (h : dictGet d k = some v) : dictSet d k v = d := by
  induction d with
  | nil => simp [dictGet] at h
  | cons p rest ih =>
      cases p with
      | mk k' w =>
          by_cases hk : k' == k
          · have hk2 : k' = k := by simpa using hk
            subst hk2
            simp [dictGet] at h
            simp [dictSet, h]
          · simp [dictGet, hk] at h
            simp [dictSet, hk, ih h]

/-- Claim C2 (counterexample): cancelling the same added id twice returns
`true` both times — `cancel_reservation` only tests membership of the id,
never the current status, so the second call does not return `false` as the
claim states. -/
theorem cancel_twice_returns_true_again :
    ((((ReservationCalendar.mk []).add_reservation "20240320190000"
        "2024-03-20" 4 "John Doe" "+1234567890").2.cancel_reservation
        "RES-20240320190000").2.cancel_reservation "RES-20240320190000").1 = true ∧
    ¬ ((((ReservationCalendar.mk []).add_reservation "20240320190000"
        "2024-03-20" 4 "John Doe" "+1234567890").2.cancel_reservation
        "RES-20240320190000").2.cancel_reservation "RES-20240320190000").1 = false := by
  constructor
  · rfl
  · simp [ReservationCalendar.add_reservation, ReservationCalendar.cancel_reservation,
      dictGet, dictSet]

/-- Claim C2 (amended): `cancel_reservation` on an id not present returns
`false` and leaves the store unchanged; on a present id it returns `true`
and sets that record's status to `"cancelled"`; cancelling an added id
twice returns `true` both times (the id stays in the store), and the second
call leaves the store unchanged. -/
theorem cancel_reservation_spec :
    (∀ (c : ReservationCalendar) (id : String),
      c.get_reservation id = none → c.cancel_reservation id = (false, c)) ∧
    (∀ (c : ReservationCalendar) (id : String) (r : Reservation),
      c.get_reservation id = some r →
        (c.cancel_reservation id).1 = true ∧
        (c.cancel_reservation id).2.get_reservation id =
          some { r with status := "cancelled" }) ∧
    (∀ (c : ReservationCalendar) (now date : String) (psize : Int)
       (nm ph : String),
      let added := c.add_reservation now date psize nm ph
      let first := added.2.cancel_reservation added.1.reservation_id
      let second := first.2.cancel_reservation added.1.reservation_id
      first.1 = true ∧ second.1 = true ∧ second.2 = first.2) := by
  refine ⟨?_, ?_, ?_⟩
  · intro c id h
    simp [ReservationCalendar.cancel_reservation, ReservationCalendar.get_reservation] at h ⊢
    simp [h]
  · intro c id r h
    simp [ReservationCalendar.cancel_reservation, ReservationCalendar.get_reservation] at h ⊢
    simp [h, dictGet_dictSet_self]
  · intro c now date psize nm ph
    simp [ReservationCalendar.add_reservation, ReservationCalendar.cancel_reservation,
      dictGet_dictSet_self]
    apply dictSet_eq_of_get
    exact dictGet_dictSet_self ..

/-- Claim C2 (witness for the amended theorem): evaluated on the empty
store and on a store holding one added reservation. -/
theorem cancel_reservation_spec_witness :
    (ReservationCalendar.mk []).cancel_reservation "RES-x" =
      (false, ReservationCalendar.mk []) ∧
    (((ReservationCalendar.mk []).add_reservation "20240320190000"
        "2024-03-20" 4 "John Doe" "+1234567890").2.cancel_reservation
        "RES-20240320190000").1 = true :=
  ⟨cancel_reservation_spec.1 (ReservationCalendar.mk []) "RES-x" rfl,
   (cancel_reservation_spec.2.1
      ((ReservationCalendar.mk []).add_reservation "20240320190000"
        "2024-03-20" 4 "John Doe" "+1234567890").2
      "RES-20240320190000"
      { reservation_id := "RES-20240320190000"
        date := "2024-03-20"
        party_size := 4
        customer_name := "John Doe"
        phone_number := "+1234567890"
        status := "confirmed" } rfl).1⟩

/-- Two back-to-back adds whose `datetime.now()` falls in the same second:
both format to the same timestamp string. -/
def collisionAdd1 : Reservation × ReservationCalendar :=
  (ReservationCalendar.mk []).add_reservation "20240320190000"
    "2024-03-20" 4 "John Doe" "+111"

/-- Second add in the same second, with different reservation data. -/
def collisionAdd2 : Reservation × ReservationCalendar :=
  collisionAdd1.2.add_reservation "20240320190000"
    "2024-03-21" 2 "Jane Roe" "+222"

/-- Claim C3 (counterexample): two `add_reservation` calls whose
`datetime.now()` timestamps format to the same second produce the SAME id
for two different reservations, and the second overwrites the first in the
store — the id is reused, refuting freshness and uniqueness as claimed. -/
theorem add_reservation_id_collision :
    collisionAdd1.1.reservation_id = collisionAdd2.1.reservation_id ∧
    collisionAdd1.1 ≠ collisionAdd2.1 ∧
    collisionAdd2.2.get_reservation collisionAdd1.1.reservation_id =
      some collisionAdd2.1 := by
  refine ⟨rfl, by decide, rfl⟩

/-- Claim C3 (amended): `add_reservation` always succeeds and assigns the
id `"RES-" ++ now` where `now` is the second-resolution timestamp of the
call; the ids of two add calls are distinct whenever their formatted
timestamps are distinct (adds in the same second reuse the id, as the
counterexample shows). -/
theorem add_reservation_fresh_id :
    (∀ (c : ReservationCalendar) (now date : String) (psize : Int)
       (nm ph : String),
      (c.add_reservation now date psize nm ph).1.reservation_id = "RES-" ++ now) ∧
    (∀ (c1 c2 : ReservationCalendar) (now1 now2 date1 date2 : String)
       (p1 p2 : Int) (n1 n2 ph1 ph2 : String),
      now1 ≠ now2 →
      (c1.add_reservation now1 date1 p1 n1 ph1).1.reservation_id ≠
        (c2.add_reservation now2 date2 p2 n2 ph2).1.reservation_id) := by
  constructor
  · intro c now date psize nm ph
    rfl
  · intro c1 c2 now1 now2 date1 date2 p1 p2 n1 n2 ph1 ph2 hne heq
    apply hne
    have hdata := congrArg String.data heq
    simp only [ReservationCalendar.add_reservation, String.data_append] at hdata
    exact String.ext (List.append_cancel_left hdata)

/-- Claim C3 (witness for the amended theorem): adds one second apart get
distinct ids. -/
theorem add_reservation_fresh_id_witness :
    ((ReservationCalendar.mk []).add_reservation "20240320190000"
        "2024-03-20" 4 "John Doe" "+111").1.reservation_id ≠
      ((ReservationCalendar.mk []).add_reservation "20240320190001"
        "2024-03-21" 2 "Jane Roe" "+222").1.reservation_id :=
  add_reservation_fresh_id.2 (ReservationCalendar.mk []) (ReservationCalendar.mk [])
    "20240320190000" "20240320190001" "2024-03-20" "2024-03-21" 4 2
    "John Doe" "Jane Roe" "+111" "+222" (by decide)

/-- Claim C4: a reservation produced by `add_reservation` is retrievable by
`get_reservation` with exactly the field values passed to `add` (and status
`"confirmed"`); after `cancel_reservation` it is still retrievable and the
stored record differs from the original only in the `status` field. -/
theorem add_get_cancel_roundtrip (c : ReservationCalendar)
    (now date : String) (psize : Int) (nm ph : String) :
    let added := c.add_reservation now date psize nm ph
    added.2.get_reservation added.1.reservation_id = some added.1 ∧
    added.1.date = date ∧ added.1.party_size = psize ∧
    added.1.customer_name = nm ∧ added.1.phone_number = ph ∧
    added.1.status = "confirmed" ∧
    (added.2.cancel_reservation added.1.reservation_id).2.get_reservation
        added.1.reservation_id = some { added.1 with status := "cancelled" } := by
  refine ⟨?_, rfl, rfl, rfl, rfl, rfl, ?_⟩
  · simp [ReservationCalendar.add_reservation, ReservationCalendar.get_reservation,
      dictGet_dictSet_self]
  · simp [ReservationCalendar.add_reservation, ReservationCalendar.get_reservation,
      ReservationCalendar.cancel_reservation, dictGet_dictSet_self]

/-- One entry of a transcript or chat history:
`{"role": ..., "content": ...}`. -/
structure Turn where
  role : String
  content : String
deriving Repr, DecidableEq

/-- Reservation parameters carried in the call metadata and bound to a
session (`date`, `time`, `people`, `name`). -/
structure ReservationParams where
  date : String
  time : String
  people : Int
  name : String
deriving Repr, DecidableEq

/-- Embeds `ReservationSession` of `app/agent.py`: the per-call
`reservation_params` and the growing `chat_history`.  The shared
`ReservationAgent` holds no per-call state, so it does not appear in the
session state. -/
structure ReservationSession where
  reservation_params : ReservationParams
  chat_history : List Turn
deriving Repr, DecidableEq

/-- Oracle for the external model invocation performed by
`temp_agent.ainvoke`: it sees the prompt inputs (the session's reservation
parameters baked into the system prompt, the chat history, and the new
input) and either returns the output text or raises. -/
def LLM : Type :=
  ReservationParams → List Turn → String → Except String String

/-- Embeds `ReservationSession.process_message`.  A fresh prompt and
executor are built from the session's parameters; `ainvoke` runs with the
current history and the message; only after it returns are the user turn
and the assistant turn appended.  The second component of the result is
the state of the session object when the call returns or raises: on an
exception nothing has been appended yet, so the session is unchanged. -/
def ReservationSession.process_message (s : ReservationSession) (llm : LLM)
    (message : String) : Except String String × ReservationSession :=
  match llm s.reservation_params s.chat_history message with
  | .error e => (.error e, s)
  | .ok output =>
      (.ok output,
       { s with chat_history :=
           s.chat_history ++ [⟨"user", message⟩, ⟨"assistant", output⟩] })

/-- Processing a message never changes the session's reservation
parameters, whether the model call returns or raises. -/
theorem process_message_params_eq (s : ReservationSession) (llm : LLM)
    (message : String) :
    (s.process_message llm message).2.reservation_params =
      s.reservation_params := by
  unfold ReservationSession.process_message
  cases llm s.reservation_params s.chat_history message <;> rfl

/-- Claim C5: a successful `process_message` call appends exactly two turns
to the transcript — the user turn with the given text, then the assistant
turn with the reply — and every previously stored turn is kept unchanged,
in order, as a prefix. -/
theorem process_message_appends_two_turns (s : ReservationSession)
    (llm : LLM) (message reply : String) (s2 : ReservationSession)
    (h : s.process_message llm message = (.ok reply, s2)) :
    s2.chat_history =
      s.chat_history ++ [⟨"user", message⟩, ⟨"assistant", reply⟩] := by
  unfold ReservationSession.process_message at h
  cases hl : llm s.reservation_params s.chat_history message with
  | error e => rw [hl] at h; simp at h
  | ok output =>
      rw [hl] at h
      simp only [Prod.mk.injEq, Except.ok.injEq] at h
      obtain ⟨h1, h2⟩ := h
      subst h1
      rw [← h2]

/-- Model invocation oracle that always succeeds with a fixed reply. -/
def llmOk : LLM := fun _ _ _ => .ok "OK"

/-- Model invocation oracle that always raises. -/
def llmFail : LLM := fun _ _ _ => .error "boom"

/-- Fixed placeholder parameters hard-coded in `llm_websocket` for the
manual UI test fallback. -/
def fallbackParams : ReservationParams :=
  { date := "2024-03-20", time := "19:00", people := 4, name := "John Doe" }

/-- Claim C5 (witness): a fresh session processing "hello" against an
oracle replying "OK" ends with exactly the two new turns. -/
theorem process_message_appends_two_turns_witness :
    ((ReservationSession.mk fallbackParams []).process_message llmOk
        "hello").2.chat_history =
      ([] : List Turn) ++ [⟨"user", "hello"⟩, ⟨"assistant", "OK"⟩] :=
  process_message_appends_two_turns (ReservationSession.mk fallbackParams [])
    llmOk "hello" "OK"
    ((ReservationSession.mk fallbackParams []).process_message llmOk "hello").2
    rfl

/-- Claim C10: if the model invocation inside `process_message` raises, the
session is exactly as before the call — no user turn, no assistant turn,
untouched parameters (the appends sit after the `await`). -/
theorem process_message_error_atomic (s : ReservationSession) (llm : LLM)
    (message e : String) (s2 : ReservationSession)
    (h : s.process_message llm message = (.error e, s2)) : s2 = s := by
  unfold ReservationSession.process_message at h
  cases hl : llm s.reservation_params s.chat_history message <;>
    rw [hl] at h <;> simp_all

/-- Claim C10 (witness): a failing oracle leaves the concrete session
unchanged. -/
theorem process_message_error_atomic_witness :
    ((ReservationSession.mk fallbackParams
        [⟨"user", "hi"⟩, ⟨"assistant", "OK"⟩]).process_message llmFail
        "hello").2 =
      ReservationSession.mk fallbackParams [⟨"user", "hi"⟩, ⟨"assistant", "OK"⟩] :=
  process_message_error_atomic
    (ReservationSession.mk fallbackParams [⟨"user", "hi"⟩, ⟨"assistant", "OK"⟩])
    llmFail "hello" "boom"
    ((ReservationSession.mk fallbackParams
        [⟨"user", "hi"⟩, ⟨"assistant", "OK"⟩]).process_message llmFail "hello").2
    rfl

/-- One inbound frame of the relay channel, restricted to the fields
`llm_websocket` consumes: `metadata`, `reservation_params`,
`interaction_type`, `response_id`, `transcript`.  `none` stands for an
absent key (for `metadata` and `reservation_params` it also covers a
Python-falsy empty dict, since `data.get("metadata") or
data.get("reservation_params")` treats both alike). -/
structure Frame where
  metadata : Option ReservationParams
  reservation_params : Option ReservationParams
  interaction_type : Option String
  response_id : Option Nat
  transcript : Option (List Turn)
deriving Repr, DecidableEq

/-- Outbound frames sent by `llm_websocket`: the reply
`{content, content_complete, response_id?}` and the error
`{error, content_complete, response_id?}`. -/
inductive OutFrame where
  | reply (content : String) (content_complete : Bool) (response_id : Option Nat)
  | err (message : String) (content_complete : Bool) (response_id : Option Nat)
deriving Repr, DecidableEq

/-- Result of handling one inbound frame: the session registered for the
call afterwards (none once the handler popped it), the outbound frames sent
for this inbound frame, and whether the handler closed the stream. -/
structure StepResult where
  session : Option ReservationSession
  out : List OutFrame
  closed : Bool
deriving Repr, DecidableEq

/-- Embeds the `if not session:` block of `llm_websocket`: on the first
frame of a call the reservation parameters are taken from
`data.get("metadata") or data.get("reservation_params")`, falling back to
the hard-coded test parameters when both are absent, and a session is
created with an empty history; on every later frame the existing session is
used and the frame's metadata is ignored. -/
def sessionFor (existing : Option ReservationSession) (frame : Frame) :
    ReservationSession :=
  match existing with
  | some s => s
  | none =>
      { reservation_params :=
          ((frame.metadata).orElse (fun _ => frame.reservation_params)).getD
            fallbackParams
        chat_history := [] }

/-- Embeds the transcript scan of `llm_websocket`: walk the transcript from
the end, take the first entry whose role is `"user"`, and treat a missing
list, an empty list, no user entry, or a falsy (empty) content as "no
message". -/
def extractMessage (transcript : Option (List Turn)) : Option String :=
  match transcript with
  | none => none
  | some ts =>
      match ts.reverse.find? (fun e => e.role == "user") with
      | none => none
      | some e => if e.content == "" then none else some e.content

/-- Embeds one iteration of the `llm_websocket` receive loop for a call
whose registered session is `session0`: session bookkeeping, the
`interaction_type != "response_required"` filter, message extraction, the
"No message provided." error frame (echoing `response_id` when present),
the reply frame on success, and the outer `except` handler which sends an
error frame without a `response_id`, closes the socket and pops the
session. -/
def handleFrame (llm : LLM) (session0 : Option ReservationSession)
    (frame : Frame) : StepResult :=
  let s := sessionFor session0 frame
  if frame.interaction_type ≠ some "response_required" then
    { session := some s, out := [], closed := false }
  else
    match extractMessage frame.transcript with
    | none =>
        { session := some s
          out := [.err "No message provided." true frame.response_id]
          closed := false }
    | some message =>
        match s.process_message llm message with
        | (.error e, _) =>
            { session := none
              out := [.err e true none]
              closed := true }
        | (.ok reply, s2) =>
            { session := some s2
              out := [.reply reply true frame.response_id]
              closed := false }

/-- Claim C6: once a session exists for a call, no later frame changes its
reservation parameters — whatever metadata the frame carries and whatever
the handler does with it (skip, error frame, or a processed turn), any
session still registered afterwards has the parameters bound at creation. -/
theorem session_params_immutable (llm : LLM)
    (session0 : Option ReservationSession) (frame : Frame)
    (s : ReservationSession) (h : session0 = some s)
    (s2 : ReservationSession)
    (h2 : (handleFrame llm session0 frame).session = some s2) :
    s2.reservation_params = s.reservation_params := by
  subst h
  unfold handleFrame at h2
  have hs : sessionFor (some s) frame = s := rfl
  rw [hs] at h2
  by_cases hit : frame.interaction_type ≠ some "response_required"
  · simp [hit] at h2
    simp [h2]
  · simp only [hit, if_neg, ite_false, if_false] at h2
    cases hm : extractMessage frame.transcript with
    | none =>
        simp [hm] at h2
        simp [h2]
    | some message =>
        simp only [hm] at h2
        cases hp : s.process_message llm message with
        | mk res snext =>
            cases res with
            | error e => simp [hp] at h2
            | ok reply =>
                simp [hp] at h2
                have := process_message_params_eq s llm message
                rw [hp] at this
                simp at this
                rw [← h2, this]

/-- Claim C6 (witness): a frame processed against an existing session with
the fallback parameters leaves those parameters in place. -/
theorem session_params_immutable_witness :
    (ReservationSession.mk fallbackParams
        [⟨"user", "Hello"⟩, ⟨"assistant", "OK"⟩]).reservation_params =
      (ReservationSession.mk fallbackParams []).reservation_params :=
  session_params_immutable llmOk (some (ReservationSession.mk fallbackParams []))
    (Frame.mk none none (some "response_required") (some 7)
      (some [⟨"agent", "hi"⟩, ⟨"user", "Hello"⟩]))
    (ReservationSession.mk fallbackParams []) rfl
    (ReservationSession.mk fallbackParams
      [⟨"user", "Hello"⟩, ⟨"assistant", "OK"⟩]) rfl

/-- Claim C7: a frame whose `interaction_type` is not
`"response_required"` produces no outbound frame and does not close the
stream — after session bookkeeping the loop just continues. -/
theorem non_response_frames_silent (llm : LLM)
    (session0 : Option ReservationSession) (frame : Frame)
    (h : frame.interaction_type ≠ some "response_required") :
    (handleFrame llm session0 frame).out = [] ∧
    (handleFrame llm session0 frame).closed = false ∧
    (handleFrame llm session0 frame).session = some (sessionFor session0 frame) := by
  unfold handleFrame
  simp [h]

/-- Claim C7 (witness): an `update_only` ping frame on a fresh call yields
no output. -/
theorem non_response_frames_silent_witness :
    (handleFrame llmOk none
        (Frame.mk none none (some "update_only") none none)).out = [] ∧
    (handleFrame llmOk none
        (Frame.mk none none (some "update_only") none none)).closed = false ∧
    (handleFrame llmOk none
        (Frame.mk none none (some "update_only") none none)).session =
      some (sessionFor none (Frame.mk none none (some "update_only") none none)) :=
  non_response_frames_silent llmOk none
    (Frame.mk none none (some "update_only") none none) (by decide)

/-- Claim C8: a response-required frame whose transcript is empty (more
generally, has no `"user"` entry) is answered with the error frame
`{error: "No message provided.", content_complete: true}`, echoing the
frame's `response_id` when one is supplied, and the handler neither closes
the stream nor drops the session. -/
theorem no_message_error_frame (llm : LLM)
    (session0 : Option ReservationSession) (frame : Frame)
    (hreq : frame.interaction_type = some "response_required")
    (hts : ∀ ts, frame.transcript = some ts → ∀ e ∈ ts, ¬ e.role = "user") :
    (handleFrame llm session0 frame).out =
      [.err "No message provided." true frame.response_id] ∧
    (handleFrame llm session0 frame).closed = false ∧
    (handleFrame llm session0 frame).session = some (sessionFor session0 frame) := by
  have hmsg : extractMessage frame.transcript = none := by
    unfold extractMessage
    cases hc : frame.transcript with
    | none => rfl
    | some ts =>
        have hfind : ts.reverse.find? (fun e => e.role == "user") = none := by
          rw [List.find?_eq_none]
          intro e he
          simpa using hts ts hc e (List.mem_reverse.mp he)
        simp [hfind]
  unfold handleFrame
  simp [hreq, hmsg]

/-- Claim C8 (witness): an empty-transcript response-required frame with
`response_id` 3 gets the error frame echoing 3, and the call stays open. -/
theorem no_message_error_frame_witness :
    (handleFrame llmOk none
        (Frame.mk none none (some "response_required") (some 3)
          (some []))).out =
      [.err "No message provided." true (some 3)] ∧
    (handleFrame llmOk none
        (Frame.mk none none (some "response_required") (some 3)
          (some []))).closed = false ∧
    (handleFrame llmOk none
        (Frame.mk none none (some "response_required") (some 3)
          (some []))).session =
      some (sessionFor none
        (Frame.mk none none (some "response_required") (some 3) (some []))) :=
  no_message_error_frame llmOk none
    (Frame.mk none none (some "response_required") (some 3) (some []))
    rfl
    (by intro ts h e he; cases h; cases he)

/-- Claim C9: the first frame of a call carrying neither `metadata` nor
`reservation_params` does not reject the turn — the session is created with
the hard-coded placeholder parameters `{date: "2024-03-20", time: "19:00",
people: 4, name: "John Doe"}`, and whenever the step does not tear the call
down the registered session carries exactly those parameters. -/
theorem fallback_placeholder_params (frame : Frame)
    (h1 : frame.metadata = none) (h2 : frame.reservation_params = none) :
    sessionFor none frame = ReservationSession.mk fallbackParams [] ∧
    ∀ llm : LLM, (handleFrame llm none frame).closed = false →
      ((handleFrame llm none frame).session.map
          (fun s => s.reservation_params)) = some fallbackParams := by
  have hsf : sessionFor none frame = ReservationSession.mk fallbackParams [] := by
    unfold sessionFor
    rw [h1, h2]
    rfl
  refine ⟨hsf, ?_⟩
  intro llm hopen
  unfold handleFrame at hopen ⊢
  rw [hsf] at hopen ⊢
  by_cases hit : frame.interaction_type ≠ some "response_required"
  · simp [hit]
  · simp only [hit, ite_false, if_false] at hopen ⊢
    cases hm : extractMessage frame.transcript with
    | none => simp [hm]
    | some message =>
        simp only [hm] at hopen ⊢
        cases hp : (ReservationSession.mk fallbackParams []).process_message
            llm message with
        | mk res snext =>
            cases res with
            | error e => simp [hp] at hopen
            | ok reply =>
                simp only [hp]
                have := process_message_params_eq
                  (ReservationSession.mk fallbackParams []) llm message
                rw [hp] at this
                simpa using this

/-- Claim C9 (witness): a bare ping frame and a bare response-required
frame with a user message, each without metadata, both leave a session with
the placeholder parameters registered. -/
theorem fallback_placeholder_params_witness :
    sessionFor none (Frame.mk none none none none none) =
      ReservationSession.mk fallbackParams [] ∧
    ((handleFrame llmOk none (Frame.mk none none (some "response_required")
        none (some [⟨"user", "Hello"⟩]))).session.map
      (fun s => s.reservation_params)) = some fallbackParams :=
  ⟨(fallback_placeholder_params (Frame.mk none none none none none)
      rfl rfl).1,
   (fallback_placeholder_params
      (Frame.mk none none (some "response_required") none
        (some [⟨"user", "Hello"⟩])) rfl rfl).2 llmOk rfl⟩

/-- The methods the class body of `ReservationAgent` in `app/agent.py`
defines.  Notably `process_message` is NOT among them — the class has no
such method, yet `app/main.py` calls `agent.process_message(...)` in the
`/chat` endpoint. -/
def reservationAgentMethods : List String :=
  ["__init__", "_create_tools", "build_prompt", "create_agent_with_prompt"]

/-- Python attribute lookup of `process_message` on a `ReservationAgent`
instance: nothing assigns the attribute on the instance and the class body
does not define it, so the lookup raises `AttributeError`. -/
def getattrProcessMessage : Except String Unit :=
  if "process_message" ∈ reservationAgentMethods then .ok ()
  else .error "ReservationAgent object has no attribute process_message"

/-- The `/chat` request body: `{message, chat_history?}`. -/
structure ChatRequest where
  message : String
  chat_history : Option (List Turn)
deriving Repr, DecidableEq

/-- Outcome of the `/chat` endpoint: the `{response}` body, or an
`HTTPException(status_code=500, detail=str(e))`. -/
inductive ChatResult where
  | ok (response : String)
  | httpError (status : Nat) (detail : String)
deriving Repr, DecidableEq

/-- Embeds the `/chat` endpoint of `app/main.py`: it awaits
`agent.process_message(...)` inside `try` and turns any exception into
HTTP 500 with `str(e)` as detail.  The attribute lookup raises before any
model call can happen, so the `ok` branch is unreachable — there is no
method body in the source that could produce a response to embed. -/
def chatEndpoint (req : ChatRequest) : ChatResult :=
  match req, getattrProcessMessage with
  | _, .error e => .httpError 500 e
  | _, .ok _ => .ok ""

/-- Claim C1: every `/chat` request — whatever its message and history —
returns HTTP 500 with the `AttributeError` text as detail, because
`ReservationAgent` defines no `process_message`; the claimed success path
returning `{response}` is unreachable. -/
theorem chat_always_http_500 : ∀ req : ChatRequest,
    chatEndpoint req =
      ChatResult.httpError 500
        "ReservationAgent object has no attribute process_message" :=
  fun _ => rfl
